import Mathlib

/-!
Verification of the go-otel trace package: a process-wide tracing facade
with a guarded singleton lifecycle (Initialize, StartSpan,
StartSpanWithOptions, Shutdown, IsInitialized).

The embedding mirrors trace.go.  The package-level variables
(globalTracer, globalTracerProvider, globalExporter, initialized)
become the fields of TraceState, and each exported function becomes a
pure state-transformer returning an optional error together with the
next state.  Go float64 sample rates are modelled as rationals, Go
time.Duration values as integers counting nanoseconds.  Effects of the
external OpenTelemetry SDK that can fail (OTLP exporter construction,
provider and exporter shutdown) are supplied as oracle arguments so the
facade logic is quantified over every outcome of the collaborator.
-/

namespace GoOtel

/-- Go errors relevant to the package, with the wrapping structure of the
fmt.Errorf chains in trace.go.  Underlying SDK failures are opaque and
carried as sdkError tokens. -/
inductive GoError where
  /-- errors.New "tracer already initialized" in Initialize. -/
  | alreadyInitialized : GoError
  /-- errors.New "tracer not initialized" in Shutdown. -/
  | notInitialized : GoError
  /-- Validation failure: empty application name. -/
  | emptyAppName : GoError
  /-- Validation failure: tracing enabled with empty collector URL. -/
  | emptyTraceURL : GoError
  /-- Validation failure: sample rate outside the interval from 0 to 1. -/
  | sampleRateOutOfRange : GoError
  /-- fmt.Errorf "invalid configuration: %w" in Initialize. -/
  | invalidConfiguration (e : GoError) : GoError
  /-- An opaque failure coming from the external SDK or transport. -/
  | sdkError (code : Nat) : GoError
  /-- fmt.Errorf "failed to create OTLP HTTP exporter: %w" in newExporter. -/
  | otlpExporterFailed (e : GoError) : GoError
  /-- fmt.Errorf "failed to create exporter: %w" in newTracerProvider. -/
  | exporterCreationFailed (e : GoError) : GoError
  /-- fmt.Errorf "failed to create tracer provider: %w" in Initialize. -/
  | tracerProviderFailed (e : GoError) : GoError
  /-- fmt.Errorf "tracer provider shutdown failed: %w" in Shutdown. -/
  | providerShutdownFailed (e : GoError) : GoError
  /-- fmt.Errorf "exporter shutdown failed: %w" in Shutdown. -/
  | exporterShutdownFailed (e : GoError) : GoError
  /-- fmt.Errorf "multiple shutdown failures - tracer: %w, exporter: %w"
  in Shutdown; the first component is the already wrapped provider
  failure, the second the raw exporter failure. -/
  | multipleShutdownFailures (tracerErr exporterErr : GoError) : GoError
deriving DecidableEq, Repr

/-- A ConfigurationError in the spec sense: the error returned by
Initialize when config.Validate fails, wrapped as
"invalid configuration: %w". -/
def GoError.isConfigurationError : GoError → Bool
  | .invalidConfiguration _ => true
  | _ => false

/-- The transport kind of the exporter (config.go, described in the
README: GRPC or HTTP). -/
inductive ExporterType where
  | grpc : ExporterType
  | http : ExporterType
deriving DecidableEq, Repr

/-- TracerConfig from config.go as documented in the README: sample rate
is a Go float64 modelled as a rational, batch timeout a time.Duration
modelled as nanoseconds. -/
structure TracerConfig where
  AppName : String
  AppVersion : String
  TracerVendor : String
  TraceURL : String
  TraceEnabled : Bool
  BatchTimeout : Int
  MaxBatchSize : Int
  Insecure : Bool
  SampleRate : ℚ
  ExporterType : ExporterType
deriving DecidableEq, Repr

/-- defaultBatchTimeout = 5 * time.Second, in nanoseconds. -/
def defaultBatchTimeout : Int := 5000000000

/-- defaultSampleRate = 0.01, written as the reduced fraction 1/100 so
that concrete comparisons evaluate in the kernel. -/
def defaultSampleRate : ℚ := ⟨1, 100, by decide, Nat.coprime_one_left 100⟩

/-- Default max batch size 512 (README: "Maximum batch size
(default: 512)"). -/
def defaultMaxBatchSize : Int := 512

/-- Modelled from the spec: config.Validate lives in config.go, which is
not among the provided sources.  Per the spec it fails with a
configuration error "when application name is empty, or when tracing is
enabled but the collector URL is empty, or when sample rate is outside
[0,1]". -/
def TracerConfig.Validate (c : TracerConfig) : Option GoError :=
  if c.AppName = "" then some GoError.emptyAppName
  else if c.TraceEnabled = true ∧ c.TraceURL = "" then some GoError.emptyTraceURL
  else if c.SampleRate < 0 ∨ 1 < c.SampleRate then some GoError.sampleRateOutOfRange
  else none

/-- Modelled from the spec: config.setDefaults lives in config.go, which
is not among the provided sources.  Per the spec it fills "unset
optional fields with defaults: batch timeout 5s, max batch size 512,
sample rate 0.01"; an unset field holds the Go zero value. -/
def TracerConfig.setDefaults (c : TracerConfig) : TracerConfig :=
  { c with
    BatchTimeout := if c.BatchTimeout = 0 then defaultBatchTimeout else c.BatchTimeout
    MaxBatchSize := if c.MaxBatchSize = 0 then defaultMaxBatchSize else c.MaxBatchSize
    SampleRate := if c.SampleRate = 0 then defaultSampleRate else c.SampleRate }

/-- The OpenTelemetry resource built by createResource: service name and
version attributes. -/
structure Resource where
  serviceName : String
  serviceVersion : String
deriving DecidableEq, Repr

/-- createResource from trace.go. -/
def createResource (config : TracerConfig) : Resource :=
  { serviceName := config.AppName, serviceVersion := config.AppVersion }

/-- The sampler chosen by newTracerProvider: AlwaysSample, NeverSample
or TraceIDRatioBased. -/
inductive Sampler where
  | alwaysSample : Sampler
  | neverSample : Sampler
  | traceIDRatioBased (ratio : ℚ) : Sampler
deriving DecidableEq, Repr

/-- The OTLP HTTP exporter built by newExporter, as configured by its
options. -/
structure Exporter where
  endpoint : String
  insecure : Bool
deriving DecidableEq, Repr

/-- The batch span processor attached by newTracerProvider when tracing
is enabled, as configured by its options. -/
structure BatchSpanProcessor where
  exporter : Exporter
  batchTimeout : Int
  maxExportBatchSize : Int
deriving DecidableEq, Repr

/-- The SDK tracer provider, as configured by newTracerProvider: a
resource, a sampler, and a batch processor when tracing is enabled. -/
structure TracerProvider where
  resource : Resource
  sampler : Sampler
  processor : Option BatchSpanProcessor
deriving DecidableEq, Repr

/-- The tracer returned by tp.Tracer(config.AppName). -/
structure Tracer where
  name : String
  provider : TracerProvider
deriving DecidableEq, Repr

/-- newExporter from trace.go.  otlptracehttp.New is an external
transport constructor; its outcome is the oracle argument exporterOk.
On success the exporter is bound to config.TraceURL with the insecure
toggle; on failure the underlying error is wrapped as
"failed to create OTLP HTTP exporter: %w". -/
def newExporter (exporterOk : Bool) (config : TracerConfig) :
    Except GoError Exporter :=
  if exporterOk then
    Except.ok { endpoint := config.TraceURL, insecure := config.Insecure }
  else
    Except.error (GoError.otlpExporterFailed (GoError.sdkError 0))

/-- newTracerProvider from trace.go: with tracing disabled, a provider
with the resource and NeverSample and no exporter; otherwise build the
exporter, pick the sampler (TraceIDRatioBased by default, overwritten
with AlwaysSample when SampleRate is at least defaultSampleRate), and
attach a batch processor with the configured timeout and batch size. -/
def newTracerProvider (exporterOk : Bool) (config : TracerConfig)
    (res : Resource) : Except GoError (TracerProvider × Option Exporter) :=
  if config.TraceEnabled = false then
    Except.ok ({ resource := res, sampler := Sampler.neverSample,
                 processor := none }, none)
  else
    match newExporter exporterOk config with
    | Except.error e => Except.error (GoError.exporterCreationFailed e)
    | Except.ok exp =>
      let ratioSampler := Sampler.traceIDRatioBased config.SampleRate
      let sampler :=
        if defaultSampleRate ≤ config.SampleRate then Sampler.alwaysSample
        else ratioSampler
      Except.ok
        ({ resource := res
           sampler := sampler
           processor := some
             { exporter := exp
               batchTimeout := config.BatchTimeout
               maxExportBatchSize := config.MaxBatchSize } }, some exp)

/-- The package-level mutable state of trace.go: globalTracer,
globalTracerProvider, globalExporter and the initialized flag.  The
mutex only serializes access and has no value-level content. -/
structure TraceState where
  globalTracer : Option Tracer
  globalTracerProvider : Option TracerProvider
  globalExporter : Option Exporter
  initialized : Bool
deriving DecidableEq, Repr

/-- The zero value of the package state: every handle nil and the flag
false, as at process start and after a successful Shutdown. -/
def TraceState.empty : TraceState :=
  { globalTracer := none
    globalTracerProvider := none
    globalExporter := none
    initialized := false }

/-- Initialize from trace.go: reject when already initialized, validate,
apply defaults, build resource and provider, then publish all four
globals at once.  exporterOk is the oracle for the external OTLP
constructor. -/
def Initialize (exporterOk : Bool) (config : TracerConfig)
    (s : TraceState) : Option GoError × TraceState :=
  if s.initialized = true then (some GoError.alreadyInitialized, s)
  else
    match config.Validate with
    | some e => (some (GoError.invalidConfiguration e), s)
    | none =>
      let cfg := config.setDefaults
      let res := createResource cfg
      match newTracerProvider exporterOk cfg res with
      | Except.error e => (some (GoError.tracerProviderFailed e), s)
      | Except.ok (tp, exp) =>
        (none,
         { globalTracer := some { name := cfg.AppName, provider := tp }
           globalTracerProvider := some tp
           globalExporter := exp
           initialized := true })

/-- IsInitialized from trace.go. -/
def IsInitialized (s : TraceState) : Bool :=
  s.initialized

/-- Shutdown from trace.go.  provErr and expErr are oracles for the
outcomes of the external SDK shutdown calls on the provider and the
exporter; each is consulted only when the matching handle is non-nil,
exactly as in the source.  A provider failure is recorded and the walk
continues; an exporter failure returns immediately, before the line
that resets the globals, so the state is only reset when the exporter
shutdown did not fail. -/
def Shutdown (provErr expErr : Option GoError) (s : TraceState) :
    Option GoError × TraceState :=
  if s.initialized = false then (some GoError.notInitialized, s)
  else
    let shutdownErr : Option GoError :=
      if s.globalTracerProvider.isSome then
        Option.map GoError.providerShutdownFailed provErr
      else none
    if s.globalExporter.isSome then
      match expErr with
      | some e =>
        match shutdownErr with
        | some se => (some (GoError.multipleShutdownFailures se e), s)
        | none => (some (GoError.exporterShutdownFailed e), s)
      | none => (shutdownErr, TraceState.empty)
    else (shutdownErr, TraceState.empty)

/-- A span as seen through the facade: either the inert no-op span of
the SDK, or an SDK span created by a tracer.  remote records whether
ending the span reports to the remote collector (it was sampled and its
provider has an exporting pipeline). -/
inductive Span where
  | noop : Span
  | active (name : String) (remote : Bool) : Span
deriving DecidableEq, Repr

/-- Whether ending this span performs remote reporting: never for the
no-op span, and for an SDK span exactly when it was sampled into an
exporting pipeline. -/
def Span.remoteReportOnEnd : Span → Bool
  | Span.noop => false
  | Span.active _ remote => remote

/-- A Go context as the facade observes it: the span slot read by
oteltrace.SpanFromContext and written by tracer.Start. -/
structure Context where
  span : Option Span
deriving DecidableEq, Repr

/-- oteltrace.SpanFromContext: the span carried by the context, or the
no-op span when the context carries none. -/
def SpanFromContext (ctx : Context) : Span :=
  match ctx.span with
  | some sp => sp
  | none => Span.noop

/-- A span start option (span kind, initial attributes, ...), passed
through to the SDK unmodified; its content is opaque to the facade. -/
structure SpanStartOption where
  token : Nat
deriving DecidableEq, Repr

/-- The sampling decision of the SDK for one span: AlwaysSample and
NeverSample are deterministic; for TraceIDRatioBased the decision
depends on the trace ID and is supplied by the coin oracle. -/
def Sampler.decide : Sampler → Bool → Bool
  | Sampler.alwaysSample, _ => true
  | Sampler.neverSample, _ => false
  | Sampler.traceIDRatioBased _, coin => coin

/-- tracer.Start of the SDK: creates a span, sampled per the provider's
sampler, remote-reporting when sampled into a pipeline that has a batch
processor, and returns the context carrying it. -/
def Tracer.Start (t : Tracer) (coin : Bool) (ctx : Context)
    (name : String) : Context × Span :=
  let sampled := t.provider.sampler.decide coin
  let sp := Span.active name (sampled && t.provider.processor.isSome)
  ({ ctx with span := some sp }, sp)

/-- StartSpan from trace.go: when not initialized (or the tracer handle
is nil) return the input context and the span recovered from it;
otherwise delegate to the global tracer. -/
def StartSpan (s : TraceState) (coin : Bool) (ctx : Context)
    (name : String) : Context × Span :=
  if s.initialized = false ∨ s.globalTracer = none then
    (ctx, SpanFromContext ctx)
  else
    match s.globalTracer with
    | some t => t.Start coin ctx name
    | none => (ctx, SpanFromContext ctx)

/-- StartSpanWithOptions from trace.go: identical guard; options are
passed through to the SDK unmodified (they are opaque here, so the
created span is that of tracer.Start). -/
def StartSpanWithOptions (s : TraceState) (coin : Bool) (ctx : Context)
    (name : String) (opts : List SpanStartOption) : Context × Span :=
  if s.initialized = false ∨ s.globalTracer = none then
    (ctx, SpanFromContext ctx)
  else
    match s.globalTracer with
    | some t => t.Start coin ctx name
    | none => (ctx, SpanFromContext ctx)

/-- A concrete valid config with tracing enabled (the README's basic
usage example), optional fields left unset. -/
def sampleConfig : TracerConfig :=
  { AppName := "svc"
    AppVersion := "1.0.0"
    TracerVendor := "otlp"
    TraceURL := "localhost:4318"
    TraceEnabled := true
    BatchTimeout := 0
    MaxBatchSize := 0
    Insecure := true
    SampleRate := 1
    ExporterType := ExporterType.http }

/-- The same config with tracing disabled. -/
def disabledConfig : TracerConfig :=
  { sampleConfig with TraceEnabled := false }

/-- An invalid config: empty application name. -/
def emptyNameConfig : TracerConfig :=
  { sampleConfig with AppName := "" }

/-- The global state after a successful enabled-tracing
initialization from the empty state. -/
def initState1 : TraceState :=
  (Initialize true sampleConfig TraceState.empty).2

/-- The default sample rate constant is the rational 0.01. -/
theorem defaultSampleRate_eq : defaultSampleRate = 1 / 100 := by
  rw [show defaultSampleRate = Rat.divInt 1 100 from Rat.mk'_eq_divInt]
  rw [Rat.divInt_eq_div]
  norm_num

/-- A successful Initialize leaves the initialized flag set. -/
theorem Initialize_ok_initState (exporterOk : Bool) (config : TracerConfig)
    (s s' : TraceState) (h : Initialize exporterOk config s = (none, s')) :
    s'.initialized = true := by
  unfold Initialize at h
  split at h
  · simp at h
  · split at h
    · simp at h
    · rcases hnt : newTracerProvider exporterOk config.setDefaults
        (createResource config.setDefaults) with e | te
      · simp [hnt] at h
      · rcases te with ⟨tp, exp⟩
        simp only [hnt] at h
        rw [Prod.mk.injEq] at h
        rw [← h.2]

/-- C8: Shutdown while Uninitialized fails with NotInitializedError and
leaves the global state unchanged, whatever the oracle outcomes. -/
theorem C8_shutdown_uninit (provErr expErr : Option GoError)
    (s : TraceState) (hs : s.initialized = false) :
    Shutdown provErr expErr s = (some GoError.notInitialized, s) := by
  simp [Shutdown, hs]

/-- C8 witness at the empty state. -/
theorem C8_shutdown_uninit_witness :
    Shutdown none none TraceState.empty
      = (some GoError.notInitialized, TraceState.empty) :=
  C8_shutdown_uninit none none TraceState.empty rfl

/-- C10: the already-initialized guard runs before validation, so an
invalid config submitted while Initialized gets AlreadyInitializedError,
which is not a ConfigurationError, and the state is unchanged. -/
theorem C10_guard_before_validation (exporterOk : Bool)
    (config : TracerConfig) (s : TraceState)
    (hs : s.initialized = true) (hbad : config.Validate.isSome = true) :
    Initialize exporterOk config s = (some GoError.alreadyInitialized, s)
    ∧ GoError.alreadyInitialized.isConfigurationError = false := by
  constructor
  · simp [Initialize, hs]
  · rfl

/-- C10 witness: the empty-name config while initialized. -/
theorem C10_guard_before_validation_witness :
    initState1.initialized = true
    ∧ emptyNameConfig.Validate.isSome = true
    ∧ Initialize true emptyNameConfig initState1
        = (some GoError.alreadyInitialized, initState1) :=
  ⟨by decide, by decide,
   (C10_guard_before_validation true emptyNameConfig initState1
      (by decide) (by decide)).1⟩

/-- C4: a second Initialize after a successful one fails with
AlreadyInitializedError and returns the first initialization's state
untouched (all four globals and the flag). -/
theorem C4_second_initialize_rejected (e1 e2 : Bool)
    (c1 c2 : TracerConfig) (s s1 : TraceState)
    (h : Initialize e1 c1 s = (none, s1)) :
    Initialize e2 c2 s1 = (some GoError.alreadyInitialized, s1) := by
  have h1 := Initialize_ok_initState e1 c1 s s1 h
  simp [Initialize, h1]

/-- C4 witness: initialize with the sample config, then again with the
disabled config. -/
theorem C4_second_initialize_rejected_witness :
    Initialize true sampleConfig TraceState.empty = (none, initState1)
    ∧ Initialize true disabledConfig initState1
        = (some GoError.alreadyInitialized, initState1) :=
  ⟨by decide,
   C4_second_initialize_rejected true true sampleConfig disabledConfig
     TraceState.empty initState1 (by decide)⟩

/-- A config that is invalid in one of the three documented ways always
fails validation. -/
theorem validate_isSome_of_invalid (config : TracerConfig)
    (h : config.AppName = ""
         ∨ (config.TraceEnabled = true ∧ config.TraceURL = "")
         ∨ config.SampleRate < 0 ∨ 1 < config.SampleRate) :
    ∃ e, config.Validate = some e := by
  unfold TracerConfig.Validate
  split
  · exact ⟨_, rfl⟩
  · split
    · exact ⟨_, rfl⟩
    · split
      · exact ⟨_, rfl⟩
      · exfalso
        tauto

/-- C3: an invalid config (empty app name, or tracing enabled with an
empty collector URL, or sample rate outside the unit interval) makes
Initialize fail with a ConfigurationError while leaving the state
exactly as it was, still uninitialized. -/
theorem C3_invalid_config_rejected (exporterOk : Bool)
    (config : TracerConfig) (s : TraceState) (hs : s.initialized = false)
    (h : config.AppName = ""
         ∨ (config.TraceEnabled = true ∧ config.TraceURL = "")
         ∨ config.SampleRate < 0 ∨ 1 < config.SampleRate) :
    ∃ e, Initialize exporterOk config s
        = (some (GoError.invalidConfiguration e), s)
      ∧ (GoError.invalidConfiguration e).isConfigurationError = true
      ∧ IsInitialized (Initialize exporterOk config s).2 = false := by
  obtain ⟨e, he⟩ := validate_isSome_of_invalid config h
  have hmain : Initialize exporterOk config s
      = (some (GoError.invalidConfiguration e), s) := by
    simp [Initialize, hs, he]
  refine ⟨e, hmain, rfl, ?_⟩
  rw [hmain]
  exact hs

/-- C3 witness: the empty-name config at the empty state. -/
theorem C3_invalid_config_rejected_witness :
    TraceState.empty.initialized = false
    ∧ ∃ e, Initialize true emptyNameConfig TraceState.empty
        = (some (GoError.invalidConfiguration e), TraceState.empty)
      ∧ (GoError.invalidConfiguration e).isConfigurationError = true
      ∧ IsInitialized (Initialize true emptyNameConfig TraceState.empty).2
          = false :=
  ⟨rfl, C3_invalid_config_rejected true emptyNameConfig TraceState.empty rfl
     (Or.inl rfl)⟩

/-- C5: independent shutdown of provider and exporter.  Both failing
reports both failures; exactly one failing returns that failure alone;
success resets every global handle so the state is re-initializable. -/
theorem C5_shutdown_error_aggregation (s : TraceState) (p e : GoError)
    (hs : s.initialized = true) :
    (s.globalTracerProvider.isSome = true →
      s.globalExporter.isSome = true →
      Shutdown (some p) (some e) s
        = (some (GoError.multipleShutdownFailures
            (GoError.providerShutdownFailed p) e), s))
    ∧ (s.globalTracerProvider.isSome = true →
      Shutdown (some p) none s
        = (some (GoError.providerShutdownFailed p), TraceState.empty))
    ∧ (s.globalExporter.isSome = true →
      Shutdown none (some e) s
        = (some (GoError.exporterShutdownFailed e), s))
    ∧ Shutdown none none s = (none, TraceState.empty)
    ∧ IsInitialized TraceState.empty = false := by
  refine ⟨fun hp he => ?_, fun hp => ?_, fun he => ?_, ?_, rfl⟩
  · simp [Shutdown, hs, hp, he]
  · simp [Shutdown, hs, hp]
  · simp [Shutdown, hs, he]
  · simp [Shutdown, hs]

/-- C5 witness at the state of a successful enabled-tracing
initialization, with both SDK shutdowns failing. -/
theorem C5_shutdown_error_aggregation_witness :
    initState1.initialized = true
    ∧ initState1.globalTracerProvider.isSome = true
    ∧ initState1.globalExporter.isSome = true
    ∧ Shutdown (some (GoError.sdkError 1)) (some (GoError.sdkError 2))
        initState1
        = (some (GoError.multipleShutdownFailures
            (GoError.providerShutdownFailed (GoError.sdkError 1))
            (GoError.sdkError 2)), initState1) :=
  ⟨by decide, by decide, by decide,
   (C5_shutdown_error_aggregation initState1 (GoError.sdkError 1)
      (GoError.sdkError 2) (by decide)).1 (by decide) (by decide)⟩

/-- With a successful exporter construction, newTracerProvider never
fails. -/
theorem newTracerProvider_ok (config : TracerConfig) (res : Resource) :
    ∃ tpe, newTracerProvider true config res = Except.ok tpe := by
  cases hE : config.TraceEnabled <;>
    simp [newTracerProvider, newExporter, hE]

/-- A valid config initializes successfully from any uninitialized
state when the exporter constructor succeeds. -/
theorem Initialize_valid_ok (config : TracerConfig) (s : TraceState)
    (hs : s.initialized = false) (hv : config.Validate = none) :
    ∃ s1, Initialize true config s = (none, s1) := by
  obtain ⟨⟨tp, exp⟩, hnt⟩ :=
    newTracerProvider_ok config.setDefaults (createResource config.setDefaults)
  simp [Initialize, hs, hv, hnt]

/-- Shutdown with no SDK failures resets the state to empty. -/
theorem Shutdown_ok (s : TraceState) (hs : s.initialized = true) :
    Shutdown none none s = (none, TraceState.empty) := by
  simp [Shutdown, hs]

/-- C6: the lifecycle is repeatable — Initialize succeeds from the
empty state and sets IsInitialized, Shutdown succeeds and clears it,
and a second Initialize on the resulting state succeeds again. -/
theorem C6_lifecycle_repeatable (config : TracerConfig)
    (hv : config.Validate = none) :
    (Initialize true config TraceState.empty).1 = none
    ∧ IsInitialized (Initialize true config TraceState.empty).2 = true
    ∧ Shutdown none none (Initialize true config TraceState.empty).2
        = (none, TraceState.empty)
    ∧ IsInitialized TraceState.empty = false
    ∧ (Initialize true config
        (Shutdown none none (Initialize true config TraceState.empty).2).2).1
        = none := by
  obtain ⟨s1, h1⟩ := Initialize_valid_ok config TraceState.empty rfl hv
  have hinit : s1.initialized = true :=
    Initialize_ok_initState true config TraceState.empty s1 h1
  have hsd : Shutdown none none s1 = (none, TraceState.empty) :=
    Shutdown_ok s1 hinit
  refine ⟨?_, ?_, ?_, rfl, ?_⟩
  · rw [h1]
  · rw [h1]
    exact hinit
  · rw [h1]
    exact hsd
  · rw [h1, hsd, h1]

/-- C6 witness with the sample config. -/
theorem C6_lifecycle_repeatable_witness :
    sampleConfig.Validate = none
    ∧ (Initialize true sampleConfig TraceState.empty).1 = none
    ∧ IsInitialized (Initialize true sampleConfig TraceState.empty).2 = true :=
  ⟨by decide,
   (C6_lifecycle_repeatable sampleConfig (by decide)).1,
   (C6_lifecycle_repeatable sampleConfig (by decide)).2.1⟩

/-- C7: an unset (zero) sample rate makes Initialize behave exactly as
if the rate were the default 0.01, and setDefaults fills the unset
optional fields with 5 seconds, 512 and 0.01. -/
theorem C7_sample_rate_default (exporterOk : Bool)
    (config : TracerConfig) (s : TraceState)
    (h : config.SampleRate = 0) :
    Initialize exporterOk config s
        = Initialize exporterOk
            { config with SampleRate := defaultSampleRate } s
    ∧ (config.setDefaults).SampleRate = defaultSampleRate
    ∧ (config.BatchTimeout = 0 →
        (config.setDefaults).BatchTimeout = defaultBatchTimeout)
    ∧ (config.MaxBatchSize = 0 →
        (config.setDefaults).MaxBatchSize = defaultMaxBatchSize)
    ∧ defaultBatchTimeout = 5000000000
    ∧ defaultMaxBatchSize = 512
    ∧ defaultSampleRate = 1 / 100 := by
  have hv : config.Validate
      = TracerConfig.Validate { config with SampleRate := defaultSampleRate } := by
    simp [TracerConfig.Validate, h,
      show ¬(1 < (0 : ℚ)) from by decide,
      show ¬(defaultSampleRate < 0 ∨ 1 < defaultSampleRate) from by decide]
  have hd : config.setDefaults
      = TracerConfig.setDefaults { config with SampleRate := defaultSampleRate } := by
    simp [TracerConfig.setDefaults, h,
      show defaultSampleRate ≠ 0 from by decide]
  refine ⟨?_, ?_, fun hb => ?_, fun hm => ?_, rfl, rfl, defaultSampleRate_eq⟩
  · unfold Initialize
    rw [hv, hd]
  · simp [TracerConfig.setDefaults, h]
  · simp [TracerConfig.setDefaults, hb]
  · simp [TracerConfig.setDefaults, hm]

/-- C7 witness: the sample config with unset sample rate. -/
theorem C7_sample_rate_default_witness :
    ({ sampleConfig with SampleRate := 0 } : TracerConfig).SampleRate = 0
    ∧ Initialize true { sampleConfig with SampleRate := 0 } TraceState.empty
        = Initialize true
            { { sampleConfig with SampleRate := 0 } with
              SampleRate := defaultSampleRate } TraceState.empty :=
  ⟨rfl,
   (C7_sample_rate_default true { sampleConfig with SampleRate := 0 }
      TraceState.empty rfl).1⟩

/-- C2: the sampler actually constructed — AlwaysSample as soon as the
sample rate reaches the default threshold 0.01, TraceIDRatioBased with
the configured rate below it, and with tracing disabled a NeverSample
provider with no exporter and no processor. -/
theorem C2_sampler_selection (exporterOk : Bool)
    (config : TracerConfig) (res : Resource) :
    (config.TraceEnabled = true → defaultSampleRate ≤ config.SampleRate →
      newTracerProvider true config res = Except.ok
        ({ resource := res
           sampler := Sampler.alwaysSample
           processor := some
             { exporter := { endpoint := config.TraceURL
                             insecure := config.Insecure }
               batchTimeout := config.BatchTimeout
               maxExportBatchSize := config.MaxBatchSize } },
         some { endpoint := config.TraceURL, insecure := config.Insecure }))
    ∧ (config.TraceEnabled = true → config.SampleRate < defaultSampleRate →
      newTracerProvider true config res = Except.ok
        ({ resource := res
           sampler := Sampler.traceIDRatioBased config.SampleRate
           processor := some
             { exporter := { endpoint := config.TraceURL
                             insecure := config.Insecure }
               batchTimeout := config.BatchTimeout
               maxExportBatchSize := config.MaxBatchSize } },
         some { endpoint := config.TraceURL, insecure := config.Insecure }))
    ∧ (config.TraceEnabled = false →
      newTracerProvider exporterOk config res = Except.ok
        ({ resource := res
           sampler := Sampler.neverSample
           processor := none }, none)) := by
  refine ⟨fun hE hle => ?_, fun hE hlt => ?_, fun hD => ?_⟩
  · simp [newTracerProvider, newExporter, hE, hle]
  · simp [newTracerProvider, newExporter, hE, not_le.mpr hlt]
  · simp [newTracerProvider, hD]

/-- C2 witness: the enabled sample config with rate 1. -/
theorem C2_sampler_selection_witness :
    sampleConfig.TraceEnabled = true
    ∧ defaultSampleRate ≤ sampleConfig.SampleRate
    ∧ newTracerProvider true sampleConfig (createResource sampleConfig)
        = Except.ok
          ({ resource := createResource sampleConfig
             sampler := Sampler.alwaysSample
             processor := some
               { exporter := { endpoint := sampleConfig.TraceURL
                               insecure := sampleConfig.Insecure }
                 batchTimeout := sampleConfig.BatchTimeout
                 maxExportBatchSize := sampleConfig.MaxBatchSize } },
           some { endpoint := sampleConfig.TraceURL
                  insecure := sampleConfig.Insecure }) :=
  ⟨rfl, by decide,
   (C2_sampler_selection true sampleConfig
      (createResource sampleConfig)).1 rfl (by decide)⟩

/-- C1 fails as universally stated: while Uninitialized, StartSpan hands
back whatever span the input context already carries
(oteltrace.SpanFromContext), so a context carrying a live
remote-reporting span yields a span that is not a no-op and does report
when ended. -/
theorem C1_uninit_counterexample :
    StartSpan TraceState.empty true
        { span := some (Span.active "op" true) } "work"
      = ({ span := some (Span.active "op" true) }, Span.active "op" true)
    ∧ (Span.active "op" true).remoteReportOnEnd = true
    ∧ Span.active "op" true ≠ Span.noop := by
  decide

/-- C1 amended: while Uninitialized, StartSpan and StartSpanWithOptions
return the input context unchanged together with the span recoverable
from it, and never return an error; that span is the no-op span, which
performs no remote reporting when ended, whenever the context does not
already carry a span. -/
theorem C1_uninit_startSpan (s : TraceState) (coin : Bool)
    (ctx : Context) (name : String) (opts : List SpanStartOption)
    (h : s.initialized = false) :
    StartSpan s coin ctx name = (ctx, SpanFromContext ctx)
    ∧ StartSpanWithOptions s coin ctx name opts = (ctx, SpanFromContext ctx)
    ∧ (ctx.span = none →
        SpanFromContext ctx = Span.noop
        ∧ (SpanFromContext ctx).remoteReportOnEnd = false) := by
  refine ⟨?_, ?_, fun hn => ?_⟩
  · simp [StartSpan, h]
  · simp [StartSpanWithOptions, h]
  · simp [SpanFromContext, hn, Span.remoteReportOnEnd]

/-- C1 witness: a bare context at the empty state. -/
theorem C1_uninit_startSpan_witness :
    TraceState.empty.initialized = false
    ∧ StartSpan TraceState.empty true { span := none } "op"
        = ({ span := none }, SpanFromContext { span := none })
    ∧ StartSpanWithOptions TraceState.empty true { span := none } "op" []
        = ({ span := none }, SpanFromContext { span := none }) :=
  ⟨rfl,
   (C1_uninit_startSpan TraceState.empty true { span := none } "op" [] rfl).1,
   (C1_uninit_startSpan TraceState.empty true { span := none } "op" [] rfl).2.1⟩

/-- C9: an exporter shutdown failure aborts Shutdown before the reset
lines, so the state survives, IsInitialized stays true and a later
Initialize is rejected as already initialized; a provider-only failure
still reaches the reset, so the state is cleared even though an error
is returned. -/
theorem C9_exporter_failure_preserves_state (s : TraceState)
    (provErr : Option GoError) (e p : GoError) (exporterOk : Bool)
    (config : TracerConfig) (hs : s.initialized = true)
    (hp : s.globalTracerProvider.isSome = true)
    (he : s.globalExporter.isSome = true) :
    (Shutdown provErr (some e) s).2 = s
    ∧ IsInitialized (Shutdown provErr (some e) s).2 = true
    ∧ Initialize exporterOk config (Shutdown provErr (some e) s).2
        = (some GoError.alreadyInitialized, s)
    ∧ (Shutdown (some p) none s).1
        = some (GoError.providerShutdownFailed p)
    ∧ (Shutdown (some p) none s).2 = TraceState.empty
    ∧ IsInitialized (Shutdown (some p) none s).2 = false := by
  have h2 : (Shutdown provErr (some e) s).2 = s := by
    rcases provErr with _ | q <;> simp [Shutdown, hs, hp, he]
  refine ⟨h2, ?_, ?_, ?_, ?_, ?_⟩
  · rw [h2]
    exact hs
  · rw [h2]
    simp [Initialize, hs]
  · simp [Shutdown, hs, hp, he]
  · simp [Shutdown, hs, hp, he]
  · simp [Shutdown, hs, hp, he, IsInitialized, TraceState.empty]

/-- C9 witness at the state of a successful enabled-tracing
initialization. -/
theorem C9_exporter_failure_preserves_state_witness :
    initState1.initialized = true
    ∧ (Shutdown none (some (GoError.sdkError 2)) initState1).2 = initState1
    ∧ Initialize true sampleConfig
        (Shutdown none (some (GoError.sdkError 2)) initState1).2
        = (some GoError.alreadyInitialized, initState1)
    ∧ (Shutdown (some (GoError.sdkError 3)) none initState1).2
        = TraceState.empty := by
  have h := C9_exporter_failure_preserves_state initState1 none
    (GoError.sdkError 2) (GoError.sdkError 3) true sampleConfig
    (by decide) (by decide) (by decide)
  exact ⟨by decide, h.1, h.2.2.1, h.2.2.2.2.1⟩

end GoOtel
